import Mathlib

/-!
Verification of the genaryn_ai decision-support backend.

Shallow embedding of the data model and operations of the repository:
machine timestamps are natural numbers (minutes) or integers, Python
floats are modelled as rationals, JSON documents as an inductive `Json`
type, and database rows as Lean structures.  Each definition is
translated from the corresponding Python source; boundary libraries
(bcrypt, PyJWT, redis) are modelled by their documented input/output
behaviour.
-/

namespace Genaryn

/-! ## Enumerations (app/models/decision.py, app/models/user.py,
    app/models/conversation.py) -/

/-- `DecisionStatus` from app/models/decision.py. -/
inductive DecisionStatus
  | draft
  | pending
  | approved
  | rejected
  | executed
deriving DecidableEq, Repr

/-- `DecisionPriority` from app/models/decision.py. -/
inductive DecisionPriority
  | routine
  | priority
  | immediate
  | flash
deriving DecidableEq, Repr

/-- `DecisionType` from app/models/decision.py. -/
inductive DecisionType
  | tactical
  | operational
  | strategic
  | administrative
  | logistics
deriving DecidableEq, Repr

/-- `UserRole` from app/models/user.py. -/
inductive UserRole
  | commander
  | staff
  | observer
  | admin
deriving DecidableEq, Repr

/-- `ConversationType` from app/models/conversation.py. -/
inductive ConversationType
  | tactical
  | strategic
  | operational
  | intelligence
  | logistics
  | general
deriving DecidableEq, Repr

/-- `ClassificationLevel` from app/models/conversation.py. -/
inductive ClassificationLevel
  | unclassified
  | confidential
  | secret
  | top_secret
deriving DecidableEq, Repr

/-- JSON values, modelling the JSONB columns and `Dict[str, Any]` payloads. -/
inductive Json
  | null
  | bool (b : Bool)
  | num (q : Rat)
  | str (s : String)
  | arr (items : List Json)
  | obj (fields : List (String × Json))

/-- The empty JSON object `{}`. -/
def Json.empty : Json := Json.obj []

/-! ## Decision rows (app/models/decision.py, class Decision) -/

/-- A row of the `decisions` table. -/
structure Decision where
  id : Nat
  conversation_id : Option Nat
  user_id : Nat
  mission_id : Option Nat
  title : String
  description : String
  type : DecisionType
  status : DecisionStatus
  priority : DecisionPriority
  recommendation : String
  rationale : Option String
  risk_assessment : Json
  alternatives : List Json
  selected_coa : Option Json
  coa_analysis : List Json
  confidence_score : Option Rat
  estimated_success_probability : Option Rat
  mdmp_phase : Option String
  mdmp_data : Json
  outcome : Option String
  lessons_learned : Option String
  approved_by : Option Nat
  approved_at : Option Nat
  rejection_reason : Option String
  created_at : Nat
  updated_at : Nat
  executed_at : Option Nat

/-- Python truthiness of an `Optional[str]`: `None` and `""` are falsy. -/
def strTruthy : Option String → Bool
  | none => false
  | some s => !s.isEmpty

namespace DecisionRepository

/-- `DecisionRepository.create` (app/repositories/decision_repository.py).
The row id and clock are explicit; `status` is fixed to `DRAFT` by the code
no matter what the caller supplies, and the JSON collections default to
empty values exactly as in the source. -/
def create (id now : Nat) (user_id : Nat) (title description : String)
    (type : DecisionType) (recommendation : String)
    (priority : DecisionPriority)
    (conversation_id mission_id : Option Nat)
    (rationale : Option String)
    (risk_assessment : Option Json)
    (alternatives coa_analysis : Option (List Json))
    (confidence_score estimated_success_probability : Option Rat)
    (mdmp_phase : Option String) (mdmp_data : Option Json) : Decision :=
  { id := id
    conversation_id := conversation_id
    user_id := user_id
    mission_id := mission_id
    title := title
    description := description
    type := type
    status := DecisionStatus.draft
    priority := priority
    recommendation := recommendation
    rationale := rationale
    risk_assessment := risk_assessment.getD Json.empty
    alternatives := alternatives.getD []
    selected_coa := none
    coa_analysis := coa_analysis.getD []
    confidence_score := confidence_score
    estimated_success_probability := estimated_success_probability
    mdmp_phase := mdmp_phase
    mdmp_data := mdmp_data.getD Json.empty
    outcome := none
    lessons_learned := none
    approved_by := none
    approved_at := none
    rejection_reason := none
    created_at := now
    updated_at := now
    executed_at := none }

/-- `DecisionRepository.update_status` (app/repositories/decision_repository.py,
lines 145-170), restricted to the found-decision path.  It assigns the
requested status and touches `updated_at` unconditionally, then stamps the
approval, rejection, or execution fields following the `if/elif` chain of
the source (`and approved_by` / `and rejection_reason` are Python
truthiness tests). -/
def update_status (now : Nat) (d : Decision) (status : DecisionStatus)
    (approved_by : Option Nat) (rejection_reason : Option String) : Decision :=
  let d1 := { d with status := status, updated_at := now }
  if status = DecisionStatus.approved ∧ approved_by.isSome then
    { d1 with approved_by := approved_by, approved_at := some now }
  else if status = DecisionStatus.rejected ∧ strTruthy rejection_reason then
    { d1 with rejection_reason := rejection_reason }
  else if status = DecisionStatus.executed then
    { d1 with executed_at := some now }
  else d1

end DecisionRepository

/-! ## The approve endpoint (app/routers/decisions.py, approve_decision) -/

/-- `DecisionApproval` request body (app/schemas/decision.py). -/
structure DecisionApproval where
  status : DecisionStatus
  rejection_reason : Option String
  notes : Option String
deriving DecidableEq, Repr

/-- Outcome of a call to the approve endpoint: the HTTP status produced and
the state of the decision row after the call (`none` when no such row). -/
structure ApproveOutcome where
  http_status : Nat
  stored : Option Decision

/-- `approve_decision` (app/routers/decisions.py, lines 323-355).  The role
gate admits exactly the commander role; a non-commander caller receives 403
before any data access.  When the decision exists the requested status is
applied through `DecisionRepository.update_status`, passing the caller as
approver only for an `approved` target, with no check of the decision's
current status. -/
def approve_decision (now : Nat) (caller_role : UserRole) (caller_id : Nat)
    (stored : Option Decision) (approval : DecisionApproval) : ApproveOutcome :=
  if caller_role ≠ UserRole.commander then
    { http_status := 403, stored := stored }
  else
    match stored with
    | none => { http_status := 404, stored := none }
    | some d =>
        { http_status := 200
          stored := some (DecisionRepository.update_status now d approval.status
            (if approval.status = DecisionStatus.approved then some caller_id else none)
            approval.rejection_reason) }

/-- Modelled from the spec: the legal edges of the decision status state
machine, "draft → pending → \x7bapproved, rejected\x7d; approved → executed". -/
def legalStatusEdge : DecisionStatus → DecisionStatus → Bool
  | DecisionStatus.draft, DecisionStatus.pending => true
  | DecisionStatus.pending, DecisionStatus.approved => true
  | DecisionStatus.pending, DecisionStatus.rejected => true
  | DecisionStatus.approved, DecisionStatus.executed => true
  | _, _ => false

/-- A concrete draft decision used as a test fixture. -/
def sampleDraftDecision : Decision :=
  { id := 1
    conversation_id := none
    user_id := 9
    mission_id := none
    title := "Secure the bridge"
    description := "Hold the river crossing"
    type := DecisionType.tactical
    status := DecisionStatus.draft
    priority := DecisionPriority.routine
    recommendation := "Advance at dawn"
    rationale := none
    risk_assessment := Json.empty
    alternatives := []
    selected_coa := none
    coa_analysis := []
    confidence_score := none
    estimated_success_probability := none
    mdmp_phase := none
    mdmp_data := Json.empty
    outcome := none
    lessons_learned := none
    approved_by := none
    approved_at := none
    rejection_reason := none
    created_at := 10
    updated_at := 10
    executed_at := none }

/-- A concrete approval request targeting the `approved` status. -/
def sampleApproval : DecisionApproval :=
  { status := DecisionStatus.approved, rejection_reason := none, notes := none }

/-! ## Authentication (app/services/auth_service.py, app/models/user.py) -/

/-- The security-tracking part of a `users` row (app/models/user.py). -/
structure AuthUser where
  username : String
  email : String
  hashed_password : String
  is_active : Bool
  failed_login_attempts : Nat
  locked_until : Option Nat
  last_login : Option Nat
deriving DecidableEq, Repr

/-- The authentication settings of app/config.py that drive the lockout
logic (`MAX_LOGIN_ATTEMPTS`, `LOCKOUT_DURATION_MINUTES`). -/
structure AuthSettings where
  max_login_attempts : Nat
  lockout_duration_minutes : Nat
deriving Repr

/-- The default settings: 5 attempts, 15 minutes. -/
def defaultAuthSettings : AuthSettings :=
  { max_login_attempts := 5, lockout_duration_minutes := 15 }

/-- Boundary model of `bcrypt.checkpw` as used by
`AuthService.verify_password`: a password verifies exactly against its own
stored credential. -/
def verify_password (plain hashed : String) : Bool := plain == hashed

namespace AuthService

/-- `AuthService.authenticate_user` (app/services/auth_service.py,
lines 108-157), restricted to the user-found path.  The clock `now` is in
minutes.  Returns the authenticated user (or `none`) together with the
stored state of the row after the call. -/
def authenticate_user (cfg : AuthSettings) (now : Nat) (user : AuthUser)
    (password : String) : Option AuthUser × AuthUser :=
  if (match user.locked_until with
      | some t => decide (now < t)
      | none => false) then
    (none, user)
  else if !verify_password password user.hashed_password then
    let attempts := user.failed_login_attempts + 1
    let user' :=
      if cfg.max_login_attempts ≤ attempts then
        { user with
            failed_login_attempts := attempts
            locked_until := some (now + cfg.lockout_duration_minutes) }
      else
        { user with failed_login_attempts := attempts }
    (none, user')
  else if !user.is_active then
    (none, user)
  else
    let user' := { user with
        failed_login_attempts := 0
        locked_until := none
        last_login := some now }
    (some user', user')

/-- Repeated authentication attempts with a fixed password, one per listed
time, threading the stored user state. -/
def authenticateSeq (cfg : AuthSettings) (password : String) :
    AuthUser → List Nat → AuthUser
  | u, [] => u
  | u, t :: ts =>
      authenticateSeq cfg password (authenticate_user cfg t u password).2 ts

end AuthService

/-! ## JWT tokens (app/services/auth_service.py, create_access_token /
    decode_token) -/

/-- The JWT claims written by the service (TokenPayload in
app/schemas/auth.py mirrors the same fields). -/
structure JwtPayload where
  sub : String
  username : Option String
  role : Option String
  exp : Int
  iat : Int
  type : String
deriving DecidableEq, Repr

/-- Boundary model of an encoded JWT: the claims together with the key the
token was signed with. -/
structure Jwt where
  payload : JwtPayload
  signed_with : String
deriving DecidableEq, Repr

/-- Boundary model of `jwt.encode`. -/
def jwt_encode (payload : JwtPayload) (key : String) : Jwt :=
  { payload := payload, signed_with := key }

/-- Boundary model of `jwt.decode`: a wrong signature raises
`InvalidTokenError` and an `exp` at or before the current time raises
`ExpiredSignatureError`; both are mapped to `none` by the caller's
exception handlers. -/
def jwt_decode (token : Jwt) (key : String) (now : Int) : Option JwtPayload :=
  if token.signed_with ≠ key then none
  else if token.payload.exp ≤ now then none
  else some token.payload

/-- The JWT settings of app/config.py used by the token helpers. -/
structure JwtConfig where
  secret_key : String
  access_token_expire_minutes : Int
deriving Repr

/-- The defaults of app/config.py. -/
def defaultJwtConfig : JwtConfig :=
  { secret_key := "your-secret-key-change-in-production"
    access_token_expire_minutes := 30 }

/-- The `.value` attribute of a `UserRole` member. -/
def roleValue : UserRole → String
  | UserRole.commander => "commander"
  | UserRole.staff => "staff"
  | UserRole.observer => "observer"
  | UserRole.admin => "admin"

namespace AuthService

/-- `AuthService.create_access_token` (app/services/auth_service.py,
lines 47-70).  `expires_delta` is in minutes and may be negative; when
absent the configured access-token lifetime applies. -/
def create_access_token (cfg : JwtConfig) (now : Int) (user_id : Nat)
    (username : String) (role : UserRole) (expires_delta : Option Int) : Jwt :=
  let expire := now + expires_delta.getD cfg.access_token_expire_minutes
  jwt_encode
    { sub := toString user_id
      username := some username
      role := some (roleValue role)
      exp := expire
      iat := now
      type := "access" }
    cfg.secret_key

/-- `AuthService.decode_token` (app/services/auth_service.py,
lines 92-106): decode with the service's secret key, mapping every decode
exception to `None`. -/
def decode_token (cfg : JwtConfig) (now : Int) (token : Jwt) :
    Option JwtPayload :=
  jwt_decode token cfg.secret_key now

end AuthService

/-! ## COA analysis (app/services/decision_service.py,
    app/schemas/decision.py) -/

/-- `RiskAssessment` schema (app/schemas/decision.py). -/
structure RiskAssessmentSchema where
  risk_level : String
  probability : Rat
  impact : Rat
  mitigation_strategies : List String
  residual_risk : Option Rat
deriving DecidableEq, Repr

/-- `CourseOfAction` schema (app/schemas/decision.py).  The pydantic field
constraint `success_probability : Field(..., ge=0, le=1)` is recorded
separately as `CourseOfAction.validProbability`. -/
structure CourseOfAction where
  id : String
  name : String
  description : String
  advantages : List String
  disadvantages : List String
  resources_required : List String
  estimated_timeline : String
  success_probability : Rat
  risk_assessment : RiskAssessmentSchema
deriving DecidableEq, Repr

/-- The bound the `CourseOfAction` schema enforces on
`success_probability` (`ge=0, le=1`). -/
def CourseOfAction.validProbability (p : Rat) : Prop := 0 ≤ p ∧ p ≤ 1

/-- One row of the comparison matrix `scores` map
(app/services/decision_service.py, `_create_comparison_matrix`). -/
structure CoaScores where
  success_probability : Rat
  resource_score : Rat
  risk_score : Rat
  timeline_score : Rat
  total : Rat
deriving DecidableEq, Repr

namespace DecisionService

/-- The per-COA entry synthesized by `_create_comparison_matrix`
(app/services/decision_service.py, lines 414-435). -/
def coa_score (coa : CourseOfAction) : CoaScores :=
  { success_probability := coa.success_probability
    resource_score := 1/2
    risk_score := 1 - coa.risk_assessment.probability
    timeline_score := 1/2
    total := coa.success_probability * (4/10) + 3/10 + 3/10 }

/-- `_create_comparison_matrix`: the `scores` map, keyed by COA id. -/
def create_comparison_matrix (coas : List CourseOfAction) :
    List (String × CoaScores) :=
  coas.map (fun coa => (coa.id, coa_score coa))

end DecisionService

/-! ## Redis failure policy (app/services/redis_service.py) -/

/-- Result of one call into the redis client: a value, or a raised
exception. -/
inductive CacheReply (α : Type)
  | ok (val : α)
  | err (msg : String)

/-- Boundary model of the redis client: the behaviour of each underlying
data call the service makes. -/
structure RedisBackend where
  get : String → CacheReply (Option Json)
  set : String → Json → Option Nat → CacheReply Bool
  delete : String → CacheReply Nat
  exists_key : String → CacheReply Nat
  incr : String → Int → CacheReply Int
  expire : String → Nat → CacheReply Bool
  ttl : String → CacheReply Int

namespace RedisService

/-- `RedisService.get` (app/services/redis_service.py, lines 52-69): any
raised failure is caught and logged, returning `None`. -/
def get (b : RedisBackend) (key : String) : Option Json :=
  match b.get key with
  | CacheReply.ok (some v) => some v
  | CacheReply.ok none => none
  | CacheReply.err _ => none

/-- `RedisService.set` (lines 71-90): a raised failure returns `False`. -/
def set (b : RedisBackend) (key : String) (value : Json)
    (expire : Option Nat) : Bool :=
  match b.set key value expire with
  | CacheReply.ok r => r
  | CacheReply.err _ => false

/-- `RedisService.delete`: `bool(count)` on success, `False` on failure. -/
def delete (b : RedisBackend) (key : String) : Bool :=
  match b.delete key with
  | CacheReply.ok n => decide (n ≠ 0)
  | CacheReply.err _ => false

/-- `RedisService.exists`: `bool(count)` on success, `False` on failure. -/
def exists_key (b : RedisBackend) (key : String) : Bool :=
  match b.exists_key key with
  | CacheReply.ok n => decide (n ≠ 0)
  | CacheReply.err _ => false

/-- `RedisService.increment`: the new counter on success, `0` on failure. -/
def increment (b : RedisBackend) (key : String) (amount : Int) : Int :=
  match b.incr key amount with
  | CacheReply.ok n => n
  | CacheReply.err _ => 0

/-- `RedisService.expire`: the client's flag on success, `False` on
failure. -/
def expire (b : RedisBackend) (key : String) (seconds : Nat) : Bool :=
  match b.expire key seconds with
  | CacheReply.ok r => r
  | CacheReply.err _ => false

/-- `RedisService.get_ttl`: the TTL on success, `-2` on failure. -/
def get_ttl (b : RedisBackend) (key : String) : Int :=
  match b.ttl key with
  | CacheReply.ok n => n
  | CacheReply.err _ => -2

end RedisService

/-- A backend whose every call raises, modelling an unreachable cache. -/
def downBackend : RedisBackend :=
  { get := fun _ => CacheReply.err "connection refused"
    set := fun _ _ _ => CacheReply.err "connection refused"
    delete := fun _ => CacheReply.err "connection refused"
    exists_key := fun _ => CacheReply.err "connection refused"
    incr := fun _ _ => CacheReply.err "connection refused"
    expire := fun _ _ => CacheReply.err "connection refused"
    ttl := fun _ => CacheReply.err "connection refused" }

/-! ## Pending-decision query (app/repositories/decision_repository.py,
    get_pending_decisions) -/

/-- The ORDER BY key of `get_pending_decisions`: the three boolean
comparisons `priority == FLASH`, `priority == IMMEDIATE`,
`priority == PRIORITY`, then `created_at`, each sorted descending. -/
def pendingOrderKey (d : Decision) : Bool × Bool × Bool × Nat :=
  (decide (d.priority = DecisionPriority.flash),
   decide (d.priority = DecisionPriority.immediate),
   decide (d.priority = DecisionPriority.priority),
   d.created_at)

/-- Descending lexicographic comparison on the ORDER BY key
(`true` before `false`, larger timestamps first). -/
def keyDescLe : Bool × Bool × Bool × Nat → Bool × Bool × Bool × Nat → Bool
  | (a1, a2, a3, ta), (b1, b2, b3, tb) =>
    if a1 ≠ b1 then a1
    else if a2 ≠ b2 then a2
    else if a3 ≠ b3 then a3
    else decide (tb ≤ ta)

/-- `a` may be listed no later than `b` under the query's ORDER BY. -/
def pendingBefore (a b : Decision) : Prop :=
  keyDescLe (pendingOrderKey a) (pendingOrderKey b) = true

instance : DecidableRel pendingBefore := fun a b =>
  inferInstanceAs (Decidable (_ = true))

namespace DecisionRepository

/-- `DecisionRepository.get_pending_decisions` (lines 124-143): restrict to
`status == PENDING` (and to the user when one is given — `if user_id:` is a
truthiness test on the optional id), order by the descending key, and cap
at `limit`.  SQL promises a result sorted by the ORDER BY key; the sort is
realised here by insertion sort. -/
def get_pending_decisions (table : List Decision) (user_id : Option Nat)
    (limit : Nat) : List Decision :=
  let filtered := table.filter (fun d =>
    decide (d.status = DecisionStatus.pending) &&
      (match user_id with
       | none => true
       | some uid => decide (d.user_id = uid)))
  (List.insertionSort pendingBefore filtered).take limit

end DecisionRepository

/-! ## Conversations (app/models/conversation.py,
    app/repositories/conversation_repository.py,
    app/routers/conversations.py, app/schemas/conversation.py) -/

/-- A row of the `conversations` table.  The metadata column was renamed to
`conversation_metadata` by migration 002. -/
structure Conversation where
  id : Nat
  user_id : Nat
  title : String
  type : ConversationType
  classification : ClassificationLevel
  mission_id : Option Nat
  context : Json
  conversation_metadata : Json
  tags : List String
  summary : Option String
  message_count : Nat
  last_message_at : Option Nat
  created_at : Nat
  updated_at : Nat

/-- `ConversationCreate` request body (app/schemas/conversation.py): the
wire field is called `metadata`. -/
structure ConversationCreate where
  title : String
  type : ConversationType
  classification : ClassificationLevel
  mission_id : Option Nat
  context : Json
  metadata : Json
  tags : List String

/-- `ConversationResponse` (app/schemas/conversation.py): the wire field is
called `metadata`. -/
structure ConversationResponse where
  id : Nat
  user_id : Nat
  title : String
  type : ConversationType
  classification : ClassificationLevel
  mission_id : Option Nat
  context : Json
  metadata : Json
  tags : List String
  summary : Option String
  message_count : Nat
  last_message_at : Option Nat
  created_at : Nat
  updated_at : Nat

/-- `ConversationResponse.from_orm` (app/schemas/conversation.py,
lines 139-159): builds the response dict field by field, mapping the
`conversation_metadata` column back to the wire name `metadata`. -/
def ConversationResponse.from_orm (c : Conversation) : ConversationResponse :=
  { id := c.id
    user_id := c.user_id
    title := c.title
    type := c.type
    classification := c.classification
    mission_id := c.mission_id
    context := c.context
    metadata := c.conversation_metadata
    tags := c.tags
    summary := c.summary
    message_count := c.message_count
    last_message_at := c.last_message_at
    created_at := c.created_at
    updated_at := c.updated_at }

namespace ConversationRepository

/-- `ConversationRepository.create` (lines 23-48): note the parameter is
named `conversation_metadata`. -/
def create (id now : Nat) (user_id : Nat) (title : String)
    (type : ConversationType) (classification : ClassificationLevel)
    (mission_id : Option Nat) (context : Option Json)
    (conversation_metadata : Option Json) (tags : Option (List String)) :
    Conversation :=
  { id := id
    user_id := user_id
    title := title
    type := type
    classification := classification
    mission_id := mission_id
    context := context.getD Json.empty
    conversation_metadata := conversation_metadata.getD Json.empty
    tags := tags.getD []
    summary := none
    message_count := 0
    last_message_at := none
    created_at := now
    updated_at := now }

/-- The keyword parameters accepted by `ConversationRepository.create`
(beyond `self`). -/
def createParams : List String :=
  ["user_id", "title", "type", "classification", "mission_id", "context",
   "conversation_metadata", "tags"]

end ConversationRepository

/-- The keyword names used at the `repo.create(...)` call site inside the
router's `create_conversation` (app/routers/conversations.py,
lines 58-67). -/
def createConversationCallKeywords : List String :=
  ["user_id", "title", "type", "classification", "mission_id", "context",
   "metadata", "tags"]

/-- Python keyword binding: a call raises `TypeError` unless every keyword
names a declared parameter of the callee. -/
def kwargsAccepted (params keywords : List String) : Bool :=
  keywords.all (fun k => params.contains k)

/-- Result of the create-conversation endpoint: a response, or the HTTP 500
produced by its `except Exception` handler. -/
inductive CreateConversationResult
  | ok (resp : ConversationResponse)
  | serverError (detail : String)

/-- `create_conversation` (app/routers/conversations.py, lines 50-71): the
handler calls `repo.create` with the keyword `metadata=`; if the binding
raises, the exception handler converts it into HTTP 500. -/
def create_conversation (id now user_id : Nat)
    (payload : ConversationCreate) : CreateConversationResult :=
  if kwargsAccepted ConversationRepository.createParams
      createConversationCallKeywords then
    CreateConversationResult.ok (ConversationResponse.from_orm
      (ConversationRepository.create id now user_id payload.title payload.type
        payload.classification payload.mission_id (some payload.context)
        (some payload.metadata) (some payload.tags)))
  else
    CreateConversationResult.serverError "Failed to create conversation"

/-! ## Probability extraction (app/services/decision_service.py,
    `_extract_probability`)

The code runs `re.search(rf"\x7bcontext\x7d.*?(\d+\.?\d*)%", text, re.IGNORECASE)`.
Leftmost-match search, the lazy gap `.*?` (whose `.` does not cross
newlines), and the greedy number group `\d+\.?\d*` followed by `%` are
embedded directly on lists of characters. -/

/-- Numeric value of a digit string. -/
def digitsVal (ds : List Char) : Nat :=
  ds.foldl (fun acc c => 10 * acc + (c.toNat - '0'.toNat)) 0

/-- Does the group `\d+\.?\d*` followed by `%` match at the head of `cs`,
and if so what does the group capture?  After the maximal digit run, only
the maximal fractional run can be followed by `%` (shrinking either run
re-exposes a digit), so backtracking reduces to the two checks below. -/
def numPercentAt (cs : List Char) : Option (List Char) :=
  let d1 := cs.takeWhile Char.isDigit
  let rest1 := cs.dropWhile Char.isDigit
  if d1.isEmpty then none
  else
    match rest1 with
    | '%' :: _ => some d1
    | '.' :: rest2 =>
        let d2 := rest2.takeWhile Char.isDigit
        let rest3 := rest2.dropWhile Char.isDigit
        match rest3 with
        | '%' :: _ => some (d1 ++ '.' :: d2)
        | _ => none
    | _ => none

/-- Scan the lazy gap `.*?` rightwards: the shortest gap of non-newline
characters after which the number group matches wins. -/
def gapScan : List Char → Option (List Char)
  | [] => none
  | c :: rest =>
      match numPercentAt (c :: rest) with
      | some d => some d
      | none => if c = '\n' then none else gapScan rest

/-- Case-insensitive literal match of `label` at the head of `cs`
(`re.IGNORECASE`). -/
def labelAt (label cs : List Char) : Bool :=
  (cs.take label.length).map Char.toLower == label.map Char.toLower

/-- Leftmost-match search for `label.*?(\d+\.?\d*)%`: try each start
position from the left; at a position where the label matches, the gap
scan decides whether the whole pattern matches there. -/
def regexSearch : List Char → List Char → Option (List Char)
  | [], _ => none
  | c :: rest, label =>
      if labelAt label (c :: rest) then
        match gapScan ((c :: rest).drop label.length) with
        | some d => some d
        | none => regexSearch rest label
      else regexSearch rest label

/-- Value of a captured group of shape `\d+\.?\d*` (Python `float`,
modelled exactly as a rational). -/
def parsePercentNumber (s : List Char) : Rat :=
  let intPart := s.takeWhile Char.isDigit
  let rest := s.dropWhile Char.isDigit
  match rest with
  | '.' :: frac => (digitsVal intPart : Rat) + (digitsVal frac : Rat) / 10 ^ frac.length
  | _ => (digitsVal intPart : Rat)

namespace DecisionService

/-- `_extract_probability` (app/services/decision_service.py,
lines 469-478): the matched percentage over 100, or the default `0.5`. -/
def extract_probability (text context : String) : Rat :=
  match regexSearch text.data context.data with
  | some num => parsePercentNumber num / 100
  | none => 1/2

end DecisionService

/-- Modelled from the claim's words, line-blind: the first percentage
figure appearing anywhere after a label occurrence, with no newline
restriction on the gap. -/
def gapScanAnyLine : List Char → Option (List Char)
  | [] => none
  | c :: rest =>
      match numPercentAt (c :: rest) with
      | some d => some d
      | none => gapScanAnyLine rest

/-- Modelled from the claim's words: the first percentage figure appearing
after the (first occurrence of the) label, anywhere later in the text. -/
def firstPercentAfterLabel : List Char → List Char → Option (List Char)
  | [], _ => none
  | c :: rest, label =>
      if labelAt label (c :: rest) then
        gapScanAnyLine ((c :: rest).drop label.length)
      else firstPercentAfterLabel rest label

/-- Index-based specification of the regex search: the match attempt at
one start position. -/
def specMatchAt (cs label : List Char) (i : Nat) : Option (List Char) :=
  if labelAt label (cs.drop i) then gapScan (cs.drop (i + label.length))
  else none

/-- Index-based specification of the regex search: the first start
position, scanning left to right, whose match attempt succeeds. -/
def specFirstMatch (cs label : List Char) : Option (List Char) :=
  (List.range (cs.length + 1)).findSome? (specMatchAt cs label)

/-! ## Claim C1: the decision status state machine -/

/-- C1 (counterexample): the approve endpoint, called by a commander on a
decision that is still a draft, happily stores status `approved`, although
draft → approved is not an edge of the specified state machine.  No
operation of the code consults the current status before assigning the
requested one. -/
theorem c1_counterexample :
    sampleDraftDecision.status = DecisionStatus.draft ∧
    (approve_decision 100 UserRole.commander 7 (some sampleDraftDecision)
        sampleApproval).stored.map Decision.status
      = some DecisionStatus.approved ∧
    legalStatusEdge DecisionStatus.draft DecisionStatus.approved = false :=
  ⟨rfl, rfl, rfl⟩

/-- C1 (amended): a decision is created with status `draft` regardless of
caller input, but `DecisionRepository.update_status` — and therefore the
approve endpoint — assigns the requested status unconditionally, without
checking that it is a legal successor of the decision's current status. -/
theorem c1_amended_status_unconstrained :
    (∀ id now user_id title description type recommendation priority
        conversation_id mission_id rationale risk_assessment alternatives
        coa_analysis confidence_score estimated_success_probability
        mdmp_phase mdmp_data,
      (DecisionRepository.create id now user_id title description type
          recommendation priority conversation_id mission_id rationale
          risk_assessment alternatives coa_analysis confidence_score
          estimated_success_probability mdmp_phase mdmp_data).status
        = DecisionStatus.draft) ∧
    (∀ now d status approved_by rejection_reason,
      (DecisionRepository.update_status now d status approved_by
          rejection_reason).status = status) ∧
    (∀ now caller_id d approval,
      (approve_decision now UserRole.commander caller_id (some d)
          approval).stored.map Decision.status = some approval.status) := by
  refine ⟨fun _ _ _ _ _ _ _ _ _ _ _ _ _ _ _ _ _ _ => rfl, ?_, ?_⟩
  · intro now d status approved_by rejection_reason
    unfold DecisionRepository.update_status
    split_ifs <;> rfl
  · intro now caller_id d approval
    show (approve_decision now UserRole.commander caller_id (some d)
        approval).stored.map Decision.status = some approval.status
    unfold approve_decision
    rw [if_neg (by simp)]
    show some (DecisionRepository.update_status now d approval.status
        (if approval.status = DecisionStatus.approved then some caller_id
         else none) approval.rejection_reason).status = some approval.status
    unfold DecisionRepository.update_status
    split_ifs <;> rfl

/-! ## Claim C2: who may approve -/

/-- C2 (counterexample): an admin-role caller does not get through the
approve endpoint's role gate — the claim says commander or admin are both
permitted, but the code admits only the commander role, so the admin
receives 403 and the decision row is untouched. -/
theorem c2_counterexample_admin_forbidden :
    approve_decision 100 UserRole.admin 7 (some sampleDraftDecision)
        sampleApproval
      = { http_status := 403, stored := some sampleDraftDecision } := rfl

/-- C2 (amended): only a commander-role caller may approve or reject; every
other role — staff, observer, and also admin — receives 403 with the stored
decision unchanged, while a commander-role caller on an existing decision
gets HTTP 200. -/
theorem c2_amended_commander_only :
    (∀ now caller_id role stored approval, role ≠ UserRole.commander →
      approve_decision now role caller_id stored approval
        = { http_status := 403, stored := stored }) ∧
    (∀ now caller_id d approval,
      (approve_decision now UserRole.commander caller_id (some d)
          approval).http_status = 200) := by
  constructor
  · intro now caller_id role stored approval h
    unfold approve_decision
    rw [if_pos h]
  · intro now caller_id d approval
    unfold approve_decision
    rw [if_neg (by simp)]

/-- C2 (witness): a staff-role caller receives 403 and the stored decision
is unchanged. -/
theorem c2_amended_commander_only_witness :
    approve_decision 100 UserRole.staff 7 (some sampleDraftDecision)
        sampleApproval
      = { http_status := 403, stored := some sampleDraftDecision } :=
  c2_amended_commander_only.1 100 7 UserRole.staff (some sampleDraftDecision)
    sampleApproval (by decide)

/-! ## Claim C4: stamping and frame of update_status -/

/-- C4 (counterexample): a transition to `approved` through
`DecisionRepository.update_status` with no approver supplied assigns the
status but stamps neither `approved_by` nor `approved_at`, contradicting
the claim that transitioning to approved always sets them. -/
theorem c4_counterexample_unstamped_approval :
    (DecisionRepository.update_status 50 sampleDraftDecision
        DecisionStatus.approved none none).status = DecisionStatus.approved ∧
    (DecisionRepository.update_status 50 sampleDraftDecision
        DecisionStatus.approved none none).approved_by = none ∧
    (DecisionRepository.update_status 50 sampleDraftDecision
        DecisionStatus.approved none none).approved_at = none :=
  ⟨rfl, rfl, rfl⟩

/-- C4 (amended): `update_status` assigns the requested status and always
touches `updated_at`; it stamps `approved_by`/`approved_at` on a transition
to `approved` *when an approver is supplied*, stamps `rejection_reason` on
a transition to `rejected` *when a non-empty reason is supplied*, and
stamps `executed_at` on a transition to `executed`; every other field — in
particular `risk_assessment`, `alternatives`, `coa_analysis`, and
`selected_coa` — is left unchanged. -/
theorem c4_amended_stamps_and_frame (now : Nat) (d : Decision)
    (status : DecisionStatus) (approved_by : Option Nat)
    (rejection_reason : Option String) (d' : Decision)
    (hd : d' = DecisionRepository.update_status now d status approved_by
      rejection_reason) :
    d'.status = status ∧
    d'.updated_at = now ∧
    d'.risk_assessment = d.risk_assessment ∧
    d'.alternatives = d.alternatives ∧
    d'.coa_analysis = d.coa_analysis ∧
    d'.selected_coa = d.selected_coa ∧
    d'.id = d.id ∧
    d'.conversation_id = d.conversation_id ∧
    d'.user_id = d.user_id ∧
    d'.mission_id = d.mission_id ∧
    d'.title = d.title ∧
    d'.description = d.description ∧
    d'.type = d.type ∧
    d'.priority = d.priority ∧
    d'.recommendation = d.recommendation ∧
    d'.rationale = d.rationale ∧
    d'.confidence_score = d.confidence_score ∧
    d'.estimated_success_probability = d.estimated_success_probability ∧
    d'.mdmp_phase = d.mdmp_phase ∧
    d'.mdmp_data = d.mdmp_data ∧
    d'.outcome = d.outcome ∧
    d'.lessons_learned = d.lessons_learned ∧
    d'.created_at = d.created_at ∧
    (status = DecisionStatus.approved → approved_by.isSome = true →
      d'.approved_by = approved_by ∧ d'.approved_at = some now) ∧
    (status = DecisionStatus.rejected → strTruthy rejection_reason = true →
      d'.rejection_reason = rejection_reason) ∧
    (status = DecisionStatus.executed → d'.executed_at = some now) := by
  subst hd
  unfold DecisionRepository.update_status
  split_ifs with h1 h2 h3
  · refine ⟨rfl, rfl, rfl, rfl, rfl, rfl, rfl, rfl, rfl, rfl, rfl, rfl, rfl,
      rfl, rfl, rfl, rfl, rfl, rfl, rfl, rfl, rfl, rfl, ?_, ?_, ?_⟩
    · intro _ _; exact ⟨rfl, rfl⟩
    · intro hs _; rw [hs] at h1; exact absurd h1.1 (by decide)
    · intro hs; rw [hs] at h1; exact absurd h1.1 (by decide)
  · refine ⟨rfl, rfl, rfl, rfl, rfl, rfl, rfl, rfl, rfl, rfl, rfl, rfl, rfl,
      rfl, rfl, rfl, rfl, rfl, rfl, rfl, rfl, rfl, rfl, ?_, ?_, ?_⟩
    · intro hs _; rw [hs] at h2; exact absurd h2.1 (by decide)
    · intro _ _; rfl
    · intro hs; rw [hs] at h2; exact absurd h2.1 (by decide)
  · refine ⟨rfl, rfl, rfl, rfl, rfl, rfl, rfl, rfl, rfl, rfl, rfl, rfl, rfl,
      rfl, rfl, rfl, rfl, rfl, rfl, rfl, rfl, rfl, rfl, ?_, ?_, ?_⟩
    · intro hs hab; rw [hs] at h3; exact absurd h3 (by decide)
    · intro hs htr; exact absurd ⟨hs, htr⟩ h2
    · intro _; rfl
  · refine ⟨rfl, rfl, rfl, rfl, rfl, rfl, rfl, rfl, rfl, rfl, rfl, rfl, rfl,
      rfl, rfl, rfl, rfl, rfl, rfl, rfl, rfl, rfl, rfl, ?_, ?_, ?_⟩
    · intro hs hab; exact absurd ⟨hs, hab⟩ h1
    · intro hs htr; exact absurd ⟨hs, htr⟩ h2
    · intro hs; exact absurd hs h3

/-- C4 (witness): an approval transition with an approver supplied stamps
the approver and timestamp, and leaves the COA analysis untouched. -/
theorem c4_amended_stamps_and_frame_witness :
    (DecisionRepository.update_status 50 sampleDraftDecision
        DecisionStatus.approved (some 7) none).approved_at = some 50 ∧
    (DecisionRepository.update_status 50 sampleDraftDecision
        DecisionStatus.approved (some 7) none).coa_analysis
      = sampleDraftDecision.coa_analysis := by
  have h := c4_amended_stamps_and_frame 50 sampleDraftDecision
    DecisionStatus.approved (some 7) none _ rfl
  exact ⟨(h.2.2.2.2.2.2.2.2.2.2.2.2.2.2.2.2.2.2.2.2.2.2.2.1 rfl rfl).2,
    h.2.2.2.2.1⟩

/-! ## Claim C3: login lockout -/

/-- A concrete active user with a clean security record. -/
def sampleAuthUser : AuthUser :=
  { username := "alice"
    email := "alice@unit.mil"
    hashed_password := "stored-credential"
    is_active := true
    failed_login_attempts := 0
    locked_until := none
    last_login := none }

/-- C3: starting from an active user with no failed attempts and no lock,
five wrong-password attempts (at arbitrary times) leave the counter at 5
and the lock at fifteen minutes past the fifth failure; while the lock is
in the future even the correct password is rejected with no state change;
once the lock has elapsed the correct password authenticates, resets the
counter to 0 and clears the lock. -/
theorem c3_lockout (u : AuthUser) (wrong correct : String)
    (t1 t2 t3 t4 t5 : Nat)
    (h0 : u.failed_login_attempts = 0)
    (hlock : u.locked_until = none)
    (hactive : u.is_active = true)
    (hw : verify_password wrong u.hashed_password = false)
    (hc : verify_password correct u.hashed_password = true)
    (u5 : AuthUser)
    (hu5 : u5 = AuthService.authenticateSeq defaultAuthSettings wrong u
      [t1, t2, t3, t4, t5]) :
    u5.failed_login_attempts = 5 ∧
    u5.locked_until = some (t5 + 15) ∧
    (∀ t, t < t5 + 15 →
      AuthService.authenticate_user defaultAuthSettings t u5 correct
        = (none, u5)) ∧
    (∀ t, t5 + 15 ≤ t →
      ((AuthService.authenticate_user defaultAuthSettings t u5 correct).1.isSome
          = true ∧
       (AuthService.authenticate_user defaultAuthSettings t u5
           correct).2.failed_login_attempts = 0 ∧
       (AuthService.authenticate_user defaultAuthSettings t u5
           correct).2.locked_until = none)) := by
  obtain ⟨un, em, hp, ia, fa, lu, ll⟩ := u
  simp only at h0 hlock hactive hw hc
  subst h0 hlock hactive
  have hseq : AuthService.authenticateSeq defaultAuthSettings wrong
      ⟨un, em, hp, true, 0, none, ll⟩ [t1, t2, t3, t4, t5]
      = ⟨un, em, hp, true, 5, some (t5 + 15), ll⟩ := by
    simp [AuthService.authenticateSeq, AuthService.authenticate_user, hw,
      defaultAuthSettings]
  subst hu5
  rw [hseq]
  refine ⟨rfl, rfl, ?_, ?_⟩
  · intro t ht
    unfold AuthService.authenticate_user
    rw [if_pos (by simpa using ht)]
  · intro t ht
    unfold AuthService.authenticate_user
    rw [if_neg (by simpa using Nat.not_lt.mpr ht)]
    rw [if_neg (by simp [hc])]
    rw [if_neg (by simp)]
    exact ⟨rfl, rfl, rfl⟩

/-- C3 (witness): five wrong passwords at minutes 1..5 lock the sample user
until minute 20; at minute 10 the correct password is still rejected; at
minute 20 it succeeds and resets the record. -/
theorem c3_lockout_witness :
    (AuthService.authenticateSeq defaultAuthSettings "wrong-pass"
        sampleAuthUser [1, 2, 3, 4, 5]).locked_until = some 20 ∧
    AuthService.authenticate_user defaultAuthSettings 10
        (AuthService.authenticateSeq defaultAuthSettings "wrong-pass"
          sampleAuthUser [1, 2, 3, 4, 5]) "stored-credential"
      = (none, AuthService.authenticateSeq defaultAuthSettings "wrong-pass"
          sampleAuthUser [1, 2, 3, 4, 5]) ∧
    (AuthService.authenticate_user defaultAuthSettings 20
        (AuthService.authenticateSeq defaultAuthSettings "wrong-pass"
          sampleAuthUser [1, 2, 3, 4, 5])
        "stored-credential").2.failed_login_attempts = 0 := by
  have h := c3_lockout sampleAuthUser "wrong-pass" "stored-credential"
    1 2 3 4 5 rfl rfl rfl (by decide) (by decide) _ rfl
  exact ⟨h.2.1, h.2.2.1 10 (by decide), (h.2.2.2 20 (by decide)).2.1⟩

/-! ## Claim C5: access-token round trip -/

/-- C5: a freshly issued access token with a positive lifetime decodes to a
payload with `type = "access"` and `sub` the user id rendered as a string;
a token issued with a negative lifetime (expiry in the past) decodes to
`none`, as does any token checked against a key other than the one it was
signed with. -/
theorem c5_token_roundtrip :
    (∀ (cfg : JwtConfig) (now : Int) (user_id : Nat) (username : String)
        (role : UserRole) (expires_delta : Option Int),
      0 < expires_delta.getD cfg.access_token_expire_minutes →
      ∃ p, AuthService.decode_token cfg now
          (AuthService.create_access_token cfg now user_id username role
            expires_delta) = some p ∧
        p.type = "access" ∧ p.sub = toString user_id) ∧
    (∀ (cfg : JwtConfig) (now : Int) (user_id : Nat) (username : String)
        (role : UserRole) (d : Int), d < 0 →
      AuthService.decode_token cfg now
        (AuthService.create_access_token cfg now user_id username role
          (some d)) = none) ∧
    (∀ (token : Jwt) (key : String) (now : Int), key ≠ token.signed_with →
      jwt_decode token key now = none) := by
  refine ⟨?_, ?_, ?_⟩
  · intro cfg now user_id username role expires_delta h
    refine ⟨{ sub := toString user_id, username := some username,
              role := some (roleValue role),
              exp := now + expires_delta.getD cfg.access_token_expire_minutes,
              iat := now, type := "access" }, ?_, rfl, rfl⟩
    unfold AuthService.decode_token AuthService.create_access_token jwt_encode
      jwt_decode
    rw [if_neg (by simp)]
    rw [if_neg (by simp only []; omega)]
  · intro cfg now user_id username role d h
    unfold AuthService.decode_token AuthService.create_access_token jwt_encode
      jwt_decode
    rw [if_neg (by simp)]
    rw [if_pos (by simp only [Option.getD]; omega)]
  · intro token key now h
    unfold jwt_decode
    rw [if_pos (Ne.symm h)]

/-- C5 (witness): the round trip at user id 42 with the default config, a
token expired by issuing it with a negative lifetime, and a decode under a
different key. -/
theorem c5_token_roundtrip_witness :
    (∃ p, AuthService.decode_token defaultJwtConfig 0
        (AuthService.create_access_token defaultJwtConfig 0 42 "cdr"
          UserRole.commander none) = some p ∧
      p.type = "access" ∧ p.sub = toString 42) ∧
    AuthService.decode_token defaultJwtConfig 0
        (AuthService.create_access_token defaultJwtConfig 0 42 "cdr"
          UserRole.commander (some (-5))) = none ∧
    jwt_decode (AuthService.create_access_token defaultJwtConfig 0 42 "cdr"
        UserRole.commander none) "other-key" 0 = none :=
  ⟨c5_token_roundtrip.1 defaultJwtConfig 0 42 "cdr" UserRole.commander none
      (by decide),
   c5_token_roundtrip.2.1 defaultJwtConfig 0 42 "cdr" UserRole.commander
      (-5) (by decide),
   c5_token_roundtrip.2.2 _ "other-key" 0 (by decide)⟩

/-! ## Claim C6: conversation metadata through the API -/

/-- C6: the rename is handled correctly below the router —
`ConversationRepository.create` stores the payload under
`conversation_metadata` and `ConversationResponse.from_orm` maps it back to
the wire name `metadata` — but the router's `create_conversation` calls
`repo.create(..., metadata=...)`, a keyword the repository function does
not declare, so the call raises `TypeError` and the handler's exception
guard turns every create request into HTTP 500: no conversation can be
created through this endpoint at all, whatever the metadata. -/
theorem c6_metadata_create_fails :
    (∀ id now user_id payload,
      create_conversation id now user_id payload
        = CreateConversationResult.serverError "Failed to create conversation") ∧
    (∀ (m : Json) id now user_id title type classification mission_id context
        tags,
      (ConversationResponse.from_orm (ConversationRepository.create id now
          user_id title type classification mission_id context (some m)
          tags)).metadata = m) :=
  ⟨fun _ _ _ _ => rfl, fun _ _ _ _ _ _ _ _ _ _ => rfl⟩

/-! ## Claim C7: the comparison-matrix total -/

/-- C7: the synthesized "total" equals `0.4 × success_probability + 0.6`,
hence lies in [0.6, 1.0] whenever the probability is in [0, 1], and equals
0.68 at probability 0.2. -/
theorem c7_total_score (coa : CourseOfAction) :
    (DecisionService.coa_score coa).total
      = 4/10 * coa.success_probability + 6/10 ∧
    (0 ≤ coa.success_probability → coa.success_probability ≤ 1 →
      6/10 ≤ (DecisionService.coa_score coa).total ∧
        (DecisionService.coa_score coa).total ≤ 1) ∧
    (coa.success_probability = 2/10 →
      (DecisionService.coa_score coa).total = 68/100) := by
  refine ⟨by unfold DecisionService.coa_score; ring, fun h0 h1 => ?_, fun h => ?_⟩
  · unfold DecisionService.coa_score
    constructor <;> simp only [] <;> nlinarith
  · unfold DecisionService.coa_score
    rw [h]
    norm_num

/-- A concrete course of action with success probability 0.2. -/
def sampleCoa : CourseOfAction :=
  { id := "coa-1"
    name := "Flank left"
    description := "Envelop via the western ridge"
    advantages := []
    disadvantages := []
    resources_required := []
    estimated_timeline := "48h"
    success_probability := 1/5
    risk_assessment :=
      { risk_level := "low"
        probability := 1/10
        impact := 1/2
        mitigation_strategies := []
        residual_risk := none } }

/-- C7 (witness): at success probability 0.2 the total is 0.68, and it does
not fall below 0.6. -/
theorem c7_total_score_witness :
    6/10 ≤ (DecisionService.coa_score sampleCoa).total ∧
    (DecisionService.coa_score sampleCoa).total = 68/100 :=
  ⟨((c7_total_score sampleCoa).2.1 (by norm_num [sampleCoa])
      (by norm_num [sampleCoa])).1,
   (c7_total_score sampleCoa).2.2 (by norm_num [sampleCoa])⟩

/-! ## Claim C9: the cache failure policy -/

/-- C9: every `RedisService` data operation maps a raised backend failure to
a neutral result instead of propagating it: `get` to `none`, `set`,
`delete`, `exists`, and `expire` to `false`, `increment` to `0`, and
`get_ttl` to `-2`. -/
theorem c9_failure_policy :
    (∀ (b : RedisBackend) (key msg : String),
      b.get key = CacheReply.err msg → RedisService.get b key = none) ∧
    (∀ (b : RedisBackend) (key : String) (value : Json)
        (expire : Option Nat) (msg : String),
      b.set key value expire = CacheReply.err msg →
      RedisService.set b key value expire = false) ∧
    (∀ (b : RedisBackend) (key msg : String),
      b.delete key = CacheReply.err msg → RedisService.delete b key = false) ∧
    (∀ (b : RedisBackend) (key msg : String),
      b.exists_key key = CacheReply.err msg →
      RedisService.exists_key b key = false) ∧
    (∀ (b : RedisBackend) (key : String) (amount : Int) (msg : String),
      b.incr key amount = CacheReply.err msg →
      RedisService.increment b key amount = 0) ∧
    (∀ (b : RedisBackend) (key : String) (seconds : Nat) (msg : String),
      b.expire key seconds = CacheReply.err msg →
      RedisService.expire b key seconds = false) ∧
    (∀ (b : RedisBackend) (key msg : String),
      b.ttl key = CacheReply.err msg → RedisService.get_ttl b key = -2) := by
  refine ⟨?_, ?_, ?_, ?_, ?_, ?_, ?_⟩ <;> intro b key
  · intro msg h; unfold RedisService.get; rw [h]
  · intro value expire msg h; unfold RedisService.set; rw [h]
  · intro msg h; unfold RedisService.delete; rw [h]
  · intro msg h; unfold RedisService.exists_key; rw [h]
  · intro amount msg h; unfold RedisService.increment; rw [h]
  · intro seconds msg h; unfold RedisService.expire; rw [h]
  · intro msg h; unfold RedisService.get_ttl; rw [h]

/-- C9 (witness): against a backend whose every call raises, each operation
returns its neutral result. -/
theorem c9_failure_policy_witness :
    RedisService.get downBackend "session:1" = none ∧
    RedisService.set downBackend "session:1" Json.null none = false ∧
    RedisService.delete downBackend "session:1" = false ∧
    RedisService.exists_key downBackend "session:1" = false ∧
    RedisService.increment downBackend "session:1" 1 = 0 ∧
    RedisService.expire downBackend "session:1" 60 = false ∧
    RedisService.get_ttl downBackend "session:1" = -2 :=
  ⟨c9_failure_policy.1 downBackend "session:1" "connection refused" rfl,
   c9_failure_policy.2.1 downBackend "session:1" Json.null none
     "connection refused" rfl,
   c9_failure_policy.2.2.1 downBackend "session:1" "connection refused" rfl,
   c9_failure_policy.2.2.2.1 downBackend "session:1" "connection refused" rfl,
   c9_failure_policy.2.2.2.2.1 downBackend "session:1" 1
     "connection refused" rfl,
   c9_failure_policy.2.2.2.2.2.1 downBackend "session:1" 60
     "connection refused" rfl,
   c9_failure_policy.2.2.2.2.2.2 downBackend "session:1"
     "connection refused" rfl⟩

/-! ## Claim C8: pending-decision ordering -/

theorem keyDescLe_total (k1 k2 : Bool × Bool × Bool × Nat) :
    keyDescLe k1 k2 = true ∨ keyDescLe k2 k1 = true := by
  obtain ⟨a1, a2, a3, ta⟩ := k1
  obtain ⟨b1, b2, b3, tb⟩ := k2
  cases a1 <;> cases b1 <;> cases a2 <;> cases b2 <;> cases a3 <;> cases b3 <;>
    simp [keyDescLe] <;> omega

theorem keyDescLe_trans (k1 k2 k3 : Bool × Bool × Bool × Nat)
    (h12 : keyDescLe k1 k2 = true) (h23 : keyDescLe k2 k3 = true) :
    keyDescLe k1 k3 = true := by
  obtain ⟨a1, a2, a3, ta⟩ := k1
  obtain ⟨b1, b2, b3, tb⟩ := k2
  obtain ⟨c1, c2, c3, tc⟩ := k3
  cases a1 <;> cases b1 <;> cases c1 <;> cases a2 <;> cases b2 <;> cases c2 <;>
    cases a3 <;> cases b3 <;> cases c3 <;>
    simp_all [keyDescLe] <;> omega

instance : IsTotal Decision pendingBefore :=
  ⟨fun a b => keyDescLe_total (pendingOrderKey a) (pendingOrderKey b)⟩

instance : IsTrans Decision pendingBefore :=
  ⟨fun a b c => keyDescLe_trans (pendingOrderKey a) (pendingOrderKey b)
    (pendingOrderKey c)⟩

/-- A pending decision with the given priority and creation time. -/
def pendingFixture (p : DecisionPriority) (t : Nat) : Decision :=
  { sampleDraftDecision with
      id := t
      status := DecisionStatus.pending
      priority := p
      created_at := t }

/-- C8: the pending query returns only pending decisions, sorted by the
descending ORDER BY key (flash, then immediate, then priority, then
routine; newest first within a class), capped at the limit; and on four
pending decisions carrying the four distinct priorities it returns them
flash–immediate–priority–routine whatever their creation times. -/
theorem c8_pending_query :
    (∀ table user_id limit d,
      d ∈ DecisionRepository.get_pending_decisions table user_id limit →
      d.status = DecisionStatus.pending) ∧
    (∀ table user_id limit,
      List.Sorted pendingBefore
        (DecisionRepository.get_pending_decisions table user_id limit)) ∧
    (∀ table user_id limit,
      (DecisionRepository.get_pending_decisions table user_id limit).length
        ≤ limit) ∧
    (∀ t1 t2 t3 t4 : Nat,
      (DecisionRepository.get_pending_decisions
          [pendingFixture DecisionPriority.routine t1,
           pendingFixture DecisionPriority.flash t2,
           pendingFixture DecisionPriority.immediate t3,
           pendingFixture DecisionPriority.priority t4] none 10).map
        Decision.priority
        = [DecisionPriority.flash, DecisionPriority.immediate,
           DecisionPriority.priority, DecisionPriority.routine]) := by
  refine ⟨?_, ?_, ?_, fun t1 t2 t3 t4 => rfl⟩
  · intro table user_id limit d hd
    unfold DecisionRepository.get_pending_decisions at hd
    have h1 := (List.take_sublist _ _).subset hd
    have h2 := (List.perm_insertionSort pendingBefore _).subset h1
    have h3 := (List.mem_filter.mp h2).2
    simp only [Bool.and_eq_true, decide_eq_true_eq] at h3
    exact h3.1
  · intro table user_id limit
    unfold DecisionRepository.get_pending_decisions
    exact List.Pairwise.sublist (List.take_sublist _ _)
      (List.sorted_insertionSort pendingBefore _)
  · intro table user_id limit
    unfold DecisionRepository.get_pending_decisions
    exact List.length_take_le _ _

/-- C8 (witness): a decision returned by the query indeed has pending
status. -/
theorem c8_pending_query_witness :
    (pendingFixture DecisionPriority.flash 2).status
      = DecisionStatus.pending :=
  c8_pending_query.1 [pendingFixture DecisionPriority.flash 2] none 10
    (pendingFixture DecisionPriority.flash 2)
    (List.mem_singleton_self (pendingFixture DecisionPriority.flash 2))

/-! ## Claim C10: probability extraction -/

lemma findSome?_map_fun {α β γ : Type} (g : α → β) (l : List α)
    (f : β → Option γ) :
    (l.map g).findSome? f = l.findSome? (fun a => f (g a)) := by
  induction l with
  | nil => rfl
  | cons a l ih => simp [List.findSome?_cons, ih]

lemma specMatchAt_cons_succ (c : Char) (rest label : List Char) (i : Nat) :
    specMatchAt (c :: rest) label (i + 1) = specMatchAt rest label i := by
  unfold specMatchAt
  have h1 : (c :: rest).drop (i + 1) = rest.drop i := List.drop_succ_cons
  have h2 : i + 1 + label.length = (i + label.length) + 1 := by omega
  rw [h1, h2, List.drop_succ_cons]

/-- The recursive leftmost search agrees with the index-based
specification of `re.search`. -/
theorem regexSearch_eq_specFirstMatch (cs label : List Char) :
    regexSearch cs label = specFirstMatch cs label := by
  induction cs with
  | nil =>
      have h1 : List.range 1 = [0] := rfl
      simp [regexSearch, specFirstMatch, specMatchAt, h1,
        List.findSome?_cons, gapScan]
  | cons c rest ih =>
      have hrange : List.range ((c :: rest).length + 1)
          = 0 :: (List.range (rest.length + 1)).map Nat.succ := by
        rw [List.length_cons, List.range_succ_eq_map]
      have hmap : List.findSome? (specMatchAt (c :: rest) label)
            ((List.range (rest.length + 1)).map Nat.succ)
          = List.findSome? (specMatchAt rest label)
              (List.range (rest.length + 1)) := by
        rw [findSome?_map_fun]
        congr 1
        funext i
        exact specMatchAt_cons_succ c rest label i
      have h0 : specMatchAt (c :: rest) label 0
          = if labelAt label (c :: rest) then
              gapScan ((c :: rest).drop label.length)
            else none := by
        unfold specMatchAt
        rw [Nat.zero_add, List.drop_zero]
      unfold specFirstMatch
      rw [hrange, List.findSome?_cons, hmap, h0]
      show regexSearch (c :: rest) label = _
      cases hlb : labelAt label (c :: rest) with
      | false =>
          simp only [regexSearch, hlb, Bool.false_eq_true, if_false]
          rw [ih]
          rfl
      | true =>
          simp only [regexSearch, hlb, if_true]
          cases hg : gapScan ((c :: rest).drop label.length) with
          | none => rw [ih]; rfl
          | some d => rfl

/-- C10 (counterexample): with the label and the percentage on different
lines, the first percentage figure appearing after the label is 80% — the
claim demands 0.8 — yet `_extract_probability` returns the 0.5 default: the
regex dot does not cross the newline. -/
theorem c10_counterexample_newline :
    DecisionService.extract_probability
        "Enemy contact:\nestimated 80% likelihood" "Enemy contact" = 1/2 ∧
    firstPercentAfterLabel "Enemy contact:\nestimated 80% likelihood".data
        "Enemy contact".data = some ['8', '0'] ∧
    parsePercentNumber ['8', '0'] / 100 = 4/5 ∧
    DecisionService.extract_probability
        "Enemy contact:\nestimated 80% likelihood" "Enemy contact"
      ≠ parsePercentNumber ['8', '0'] / 100 := by
  have hp : parsePercentNumber ['8', '0'] = ((80 : Nat) : Rat) := rfl
  refine ⟨rfl, rfl, ?_, ?_⟩
  · rw [hp]; norm_num
  · rw [show DecisionService.extract_probability
        "Enemy contact:\nestimated 80% likelihood" "Enemy contact"
        = 1/2 from rfl, hp]
    norm_num

/-- C10 (amended): `_extract_probability` returns the first percentage
figure matched after a label occurrence *on the same line as it* divided
by 100 (the leftmost match of the index-based search specification), 0.5
when no line holds a percentage after the label; the result is not clamped,
so a matched "150%" yields 1.5, outside the 0–1 bound the `CourseOfAction`
schema enforces downstream. -/
theorem c10_amended_same_line :
    (∀ text context : String,
      DecisionService.extract_probability text context
        = match specFirstMatch text.data context.data with
          | some num => parsePercentNumber num / 100
          | none => 1/2) ∧
    DecisionService.extract_probability "Assault achieves 150% success"
        "Assault" = 3/2 ∧
    ¬ CourseOfAction.validProbability
        (DecisionService.extract_probability "Assault achieves 150% success"
          "Assault") ∧
    DecisionService.extract_probability "no figures here" "risk" = 1/2 := by
  have h150 : DecisionService.extract_probability
      "Assault achieves 150% success" "Assault" = 3/2 := by
    rw [show DecisionService.extract_probability
        "Assault achieves 150% success" "Assault"
        = ((150 : Nat) : Rat) / 100 from rfl]
    norm_num
  refine ⟨?_, h150, ?_, rfl⟩
  · intro text context
    unfold DecisionService.extract_probability
    rw [regexSearch_eq_specFirstMatch]
  · rw [h150]
    intro h
    have h2 := h.2
    norm_num at h2

end Genaryn
